import Mathlib

/-!
# PromptHub — shallow embedding of the search-and-filter core

This file embeds the query-construction and result-shaping logic of the
PromptHub repository (`lib/queries.js`, `app/api/prompts/route.js`,
`app/api/stats/route.js`) as pure Lean functions over an explicit snapshot
of the Data Store (a list of `Prompt` records), and proves the spec's
claims about them.

The Data Store itself (Supabase / PostgreSQL) is external: its row set is
the `store : List Prompt` parameter, the full-text-search operator
(`content.fts`) is an abstract boolean parameter `fts`, and the outcome of
one round trip (success / error field set / exception thrown) is the
explicit `RoundTrip` parameter.  `ILIKE '%q%'` on a pattern-free needle is
case-insensitive substring containment, embedded directly.
-/

/-- A row of the `prompts` table (see `supabase_schema.sql`):
`id SERIAL PRIMARY KEY, title TEXT, content TEXT, category TEXT,
tags TEXT[], created_at TIMESTAMPTZ`.  `category` and `tags` are nullable
and the code branches on their nullness, so they are `Option`s; timestamps
are abstracted to naturals ordered as the real timestamps are. -/
structure Prompt where
  id : Nat
  title : String
  content : String
  category : Option String
  tags : Option (List String)
  created_at : Nat
deriving DecidableEq, Repr

/-- Outcome of one round trip to the Data Store, as seen by the
`supabase-js` caller: the awaited result has a null `error` field
(success), a non-null `error` field, or the await itself threw. -/
inductive RoundTrip where
  | success : RoundTrip
  | failure : String → RoundTrip
  | raised : String → RoundTrip
deriving DecidableEq, Repr

/-- JavaScript `String.prototype.trim`: remove leading and trailing
whitespace.  Embedded at the character level so it computes by
`decide`/`rfl`. -/
def jsTrim (s : String) : String :=
  ⟨((s.toList.dropWhile Char.isWhitespace).reverse.dropWhile
      Char.isWhitespace).reverse⟩

/-- Is `needle` a contiguous sublist of `hay`?  (Character-level substring
test used to embed SQL `ILIKE` with a `%…%` pattern.) -/
def subseqAt : List Char → List Char → Bool
  | _, [] => true
  | hay, needle =>
    needle.isPrefixOf hay ||
      match hay with
      | [] => false
      | _ :: t => subseqAt t needle

/-- The characters of `s` lowercased (character-level embedding of
`lower(s)`). -/
def lowerChars (s : String) : List Char :=
  s.toList.map Char.toLower

/-- `title ILIKE '%' || q || '%'` for a wildcard-free `q`: case-insensitive
substring containment. -/
def titleIlike (title q : String) : Bool :=
  subseqAt (lowerChars title) (lowerChars q)

/-- The text-filter predicate composed by `searchPrompts` when the trimmed
query is non-empty: `content.fts.<q>,title.ilike.%<q>%` joined by `.or`,
i.e. full-text match on `content` OR case-insensitive substring on
`title`.  `fts` is the Data Store's full-text operator, left abstract. -/
def textMatch (fts : String → String → Bool) (q : String) (p : Prompt) : Bool :=
  fts p.content q || titleIlike p.title q

/-- The `eq('category', category.trim())` predicate.  SQL `=` against a
NULL category is not true, so a record with absent category never
matches. -/
def categoryMatch (c : String) (p : Prompt) : Bool :=
  p.category == some c

/-- The `contains('tags', tags)` predicate: PostgreSQL array containment
`tags @> supplied`, i.e. the record's tag array contains every supplied
tag.  A NULL `tags` column never satisfies `@>`, matching `getD []` here
because the filter is only installed for a non-empty supplied list. -/
def tagsMatch (ts : List String) (p : Prompt) : Bool :=
  ts.all (fun t => (p.tags.getD []).contains t)

/-- `order('created_at', { ascending: false })`: rows sorted by
`created_at` descending. -/
def sortByCreatedDesc (l : List Prompt) : List Prompt :=
  l.mergeSort (fun a b => decide (b.created_at ≤ a.created_at))

/-- Denotation of the composed `searchPrompts` query before pagination:
the ordered row set with the three conditional filters installed exactly
as the builder installs them (text filter iff the trimmed query is
non-empty, category filter iff the supplied category trims non-empty, tag
filter iff the supplied tag list is non-empty). -/
def filteredSorted (fts : String → String → Bool) (store : List Prompt)
    (query : String) (category : Option String) (tags : List String) :
    List Prompt :=
  let base := sortByCreatedDesc store
  let afterText :=
    if jsTrim query ≠ "" then base.filter (textMatch fts (jsTrim query)) else base
  let afterCat :=
    match category with
    | none => afterText
    | some c =>
      if jsTrim c ≠ "" then afterText.filter (categoryMatch (jsTrim c)) else afterText
  if tags.isEmpty then afterCat else afterCat.filter (tagsMatch tags)

/-- Default `limit` from the destructuring `{ limit = 50 } = {}` in
`searchPrompts`. -/
def defaultLimit : Nat := 50

/-- Default `offset` from the destructuring `{ offset = 0 } = {}` in
`searchPrompts`. -/
def defaultOffset : Nat := 0

/-- Denotation of the full composed query: `range(offset, offset + limit - 1)`
applied to the filtered, sorted rows — the zero-based window of at most
`limit` rows starting at `offset`. -/
def evalSearch (fts : String → String → Bool) (store : List Prompt)
    (query : String) (category : Option String) (tags : List String)
    (limit offset : Nat) : List Prompt :=
  ((filteredSorted fts store query category tags).drop offset).take limit

/-- `searchPrompts` with the round-trip outcome explicit: on success the
rows are the denotation of the composed query; a non-null `error` field or
a thrown exception is caught and converted to `[]`. -/
def searchPrompts (fts : String → String → Bool) (store : List Prompt)
    (query : String) (category : Option String) (tags : List String)
    (limit offset : Nat) (rt : RoundTrip) : List Prompt :=
  match rt with
  | .success => evalSearch fts store query category tags limit offset
  | .failure _ => []
  | .raised _ => []

/-- `getPromptById`: `eq('id', id).single()`.  `.single()` succeeds with
the row exactly when one row matches; zero (or several) matching rows make
it report an error, which the code converts to `null`, as it does a
failed round trip or a thrown exception. -/
def getPromptById (store : List Prompt) (i : Nat) (rt : RoundTrip) :
    Option Prompt :=
  match rt with
  | .success =>
    match store.filter (fun p => p.id == i) with
    | [p] => some p
    | _ => none
  | .failure _ => none
  | .raised _ => none

/-- String order used to embed JavaScript's default `Array.prototype.sort`
on strings: lexicographic comparison. -/
def strLe (a b : String) : Bool := decide (a ≤ b)

/-- `getCategories`: select the non-null `category` values
(`not('category', 'is', null)`), deduplicate (`new Set`), sort ascending
(`.sort()`); errors fail soft to `[]`. -/
def getCategories (store : List Prompt) (rt : RoundTrip) : List String :=
  match rt with
  | .success => ((store.filterMap (fun p => p.category)).dedup).mergeSort strLe
  | .failure _ => []
  | .raised _ => []

/-- `getTags`: select the non-null `tags` arrays, flatten (`flatMap`),
deduplicate (`new Set`), sort ascending (`.sort()`); errors fail soft to
`[]`. -/
def getTags (store : List Prompt) (rt : RoundTrip) : List String :=
  match rt with
  | .success =>
    (((store.filterMap (fun p => p.tags)).flatten).dedup).mergeSort strLe
  | .failure _ => []
  | .raised _ => []

/-- `getPromptCount`: `select('*', { count: 'exact', head: true })` — the
exact number of rows in the table; errors fail soft to `0`. -/
def getPromptCount (store : List Prompt) (rt : RoundTrip) : Nat :=
  match rt with
  | .success => store.length
  | .failure _ => 0
  | .raised _ => 0

/-! ## Helper lemmas -/

theorem trim_empty_str : jsTrim "" = "" := by decide

/-- Membership in the filtered, sorted row set: a record is kept iff it is
in the store and passes every filter that the builder installed. -/
theorem mem_filteredSorted {fts : String → String → Bool} {store : List Prompt}
    {q : String} {c : Option String} {tg : List String} {p : Prompt} :
    p ∈ filteredSorted fts store q c tg ↔
      p ∈ store ∧
        (jsTrim q ≠ "" → textMatch fts (jsTrim q) p = true) ∧
        (∀ cs, c = some cs → jsTrim cs ≠ "" → categoryMatch (jsTrim cs) p = true) ∧
        (tg ≠ [] → tagsMatch tg p = true) := by
  unfold filteredSorted sortByCreatedDesc
  rcases c with _ | cs
  · by_cases hq : jsTrim q = "" <;> by_cases ht : tg = [] <;>
      simp [hq, ht, List.mem_filter, List.mem_mergeSort] <;> tauto
  · by_cases hq : jsTrim q = "" <;> by_cases hc : jsTrim cs = "" <;>
      by_cases ht : tg = [] <;>
      simp [hq, hc, ht, List.mem_filter, List.mem_mergeSort] <;> tauto

/-- The filtered row set is a sublist of the sorted row set (filters only
remove rows, preserving the order). -/
theorem filteredSorted_sublist (fts : String → String → Bool)
    (store : List Prompt) (q : String) (c : Option String)
    (tg : List String) :
    (filteredSorted fts store q c tg).Sublist (sortByCreatedDesc store) := by
  unfold filteredSorted
  have h1 : (if jsTrim q ≠ "" then
        (sortByCreatedDesc store).filter (textMatch fts (jsTrim q))
      else sortByCreatedDesc store).Sublist (sortByCreatedDesc store) := by
    split
    · exact List.filter_sublist _
    · exact List.Sublist.refl _
  rcases c with _ | cs
  · dsimp only
    by_cases ht : tg.isEmpty <;> simp only [ht, if_true, if_false]
    · simpa using h1
    · exact (List.filter_sublist _).trans h1
  · dsimp only
    have h2 : (if jsTrim cs ≠ "" then
          (if jsTrim q ≠ "" then
              (sortByCreatedDesc store).filter (textMatch fts (jsTrim q))
            else sortByCreatedDesc store).filter (categoryMatch (jsTrim cs))
        else if jsTrim q ≠ "" then
            (sortByCreatedDesc store).filter (textMatch fts (jsTrim q))
          else sortByCreatedDesc store).Sublist (sortByCreatedDesc store) := by
      split
      · exact (List.filter_sublist _).trans h1
      · exact h1
    by_cases ht : tg.isEmpty <;> simp only [ht, if_true, if_false]
    · simpa using h2
    · exact (List.filter_sublist _).trans h2

/-- The sorted row set is pairwise descending in `created_at`. -/
theorem pairwise_sortByCreatedDesc (store : List Prompt) :
    List.Pairwise (fun a b : Prompt => b.created_at ≤ a.created_at)
      (sortByCreatedDesc store) := by
  have htrans : ∀ a b c : Prompt,
      decide (b.created_at ≤ a.created_at) = true →
      decide (c.created_at ≤ b.created_at) = true →
      decide (c.created_at ≤ a.created_at) = true := by
    intro a b c hab hbc
    simp only [decide_eq_true_eq] at *
    omega
  have htotal : ∀ a b : Prompt,
      (decide (b.created_at ≤ a.created_at) ||
        decide (a.created_at ≤ b.created_at)) = true := by
    intro a b
    simp [Nat.le_total]
  have h := @List.sorted_mergeSort Prompt
    (fun a b => decide (b.created_at ≤ a.created_at)) htrans htotal store
  exact h.imp (fun hab => by simpa using hab)

/-! ## Claims -/

/-- C1.  The text filter is applied only when the query trims to a
non-empty string; when applied, a record matches iff its `content`
full-text-matches the trimmed query OR its `title` contains it as a
case-insensitive substring, and this disjunction is conjoined with the
other active filters (which is what membership in
`filteredSorted fts store "" c tg` expresses). -/
theorem text_filter_disjunction (fts : String → String → Bool)
    (store : List Prompt) (q : String) (c : Option String)
    (tg : List String) (p : Prompt) :
    p ∈ filteredSorted fts store q c tg ↔
      p ∈ filteredSorted fts store "" c tg ∧
        (jsTrim q ≠ "" →
          (fts p.content (jsTrim q) = true ∨
            titleIlike p.title (jsTrim q) = true)) := by
  rw [mem_filteredSorted, mem_filteredSorted]
  simp only [trim_empty_str, textMatch, Bool.or_eq_true, ne_eq,
    not_true_eq_false, false_implies, true_and]
  tauto

/-- C2.  The tag filter has superset semantics: conjoined with the other
filters, a record passes iff its tag array contains every supplied tag;
an empty supplied list imposes no condition.  A record tagged
`{a, b, c}` matches a request of `{a, b}`; a record tagged `{a}` does
not. -/
theorem tag_filter_superset (fts : String → String → Bool)
    (store : List Prompt) (q : String) (c : Option String)
    (tg : List String) (p : Prompt) :
    (p ∈ filteredSorted fts store q c tg ↔
      p ∈ filteredSorted fts store q c [] ∧
        ∀ t ∈ tg, t ∈ p.tags.getD []) ∧
      tagsMatch ["a", "b"] ⟨1, "", "", none, some ["a", "b", "c"], 0⟩ = true ∧
      tagsMatch ["a", "b"] ⟨2, "", "", none, some ["a"], 0⟩ = false := by
  refine ⟨?_, by decide, by decide⟩
  rw [mem_filteredSorted, mem_filteredSorted]
  by_cases ht : tg = []
  · subst ht; simp
  · simp only [ht, ne_eq, not_false_eq_true, forall_const, tagsMatch,
      List.all_eq_true, List.elem_iff, not_true_eq_false,
      false_implies, and_true]
    tauto

/-- C3.  The category filter is applied only when the supplied category
trims non-empty, and is an exact, case-sensitive match on the record's
`category`: conjoined with the other filters, a record passes iff its
category equals the trimmed supplied value.  Filtering for `"Writing"`
excludes a record with category `"writing"`. -/
theorem category_filter_exact (fts : String → String → Bool)
    (store : List Prompt) (q : String) (cs : String)
    (tg : List String) (p : Prompt) :
    (p ∈ filteredSorted fts store q (some cs) tg ↔
      p ∈ filteredSorted fts store q none tg ∧
        (jsTrim cs ≠ "" → p.category = some (jsTrim cs))) ∧
      categoryMatch "Writing" ⟨1, "", "", some "writing", none, 0⟩ = false := by
  refine ⟨?_, by decide⟩
  rw [mem_filteredSorted, mem_filteredSorted]
  simp only [categoryMatch, beq_iff_eq, Option.some.injEq, forall_eq',
    false_implies, true_and, forall_false, implies_true, and_true]
  tauto

/-- C4.  `searchPrompts` always returns at most `limit` records, sorted by
`created_at` descending, and the returned window is exactly the rows of
the filtered, sorted set at zero-based positions `offset`,
`offset + 1`, …; the destructuring defaults are `limit = 50` and
`offset = 0`. -/
theorem pagination_and_order (fts : String → String → Bool)
    (store : List Prompt) (q : String) (c : Option String)
    (tg : List String) (limit offset : Nat) :
    (searchPrompts fts store q c tg limit offset .success).length ≤ limit ∧
    List.Pairwise (fun a b : Prompt => b.created_at ≤ a.created_at)
      (searchPrompts fts store q c tg limit offset .success) ∧
    (∀ i : Nat, i < limit →
      (searchPrompts fts store q c tg limit offset .success)[i]? =
        (filteredSorted fts store q c tg)[offset + i]?) ∧
    defaultLimit = 50 ∧ defaultOffset = 0 := by
  refine ⟨?_, ?_, ?_, rfl, rfl⟩
  · show (((filteredSorted fts store q c tg).drop offset).take limit).length
        ≤ limit
    simp [List.length_take]
  · show List.Pairwise _
      (((filteredSorted fts store q c tg).drop offset).take limit)
    exact List.Pairwise.sublist
      ((List.take_sublist _ _).trans (List.drop_sublist _ _))
      (List.Pairwise.sublist (filteredSorted_sublist fts store q c tg)
        (pairwise_sortByCreatedDesc store))
  · intro i hi
    show (((filteredSorted fts store q c tg).drop offset).take limit)[i]? = _
    rw [List.getElem?_take, if_pos hi, List.getElem?_drop]

/-- C5.  Every core read operation is fail-soft: whenever the round trip
reports an error or throws, `searchPrompts` returns `[]`,
`getPromptCount` returns `0`, and `getCategories`/`getTags` return `[]` —
the return types carry no error value at all. -/
theorem fail_soft_contract (fts : String → String → Bool)
    (store : List Prompt) (q : String) (c : Option String)
    (tg : List String) (limit offset : Nat) (msg : String) :
    searchPrompts fts store q c tg limit offset (.failure msg) = [] ∧
    searchPrompts fts store q c tg limit offset (.raised msg) = [] ∧
    getPromptCount store (.failure msg) = 0 ∧
    getPromptCount store (.raised msg) = 0 ∧
    getCategories store (.failure msg) = [] ∧
    getCategories store (.raised msg) = [] ∧
    getTags store (.failure msg) = [] ∧
    getTags store (.raised msg) = [] :=
  ⟨rfl, rfl, rfl, rfl, rfl, rfl, rfl, rfl⟩

/-- `mergeSort` under `strLe` yields a list that is pairwise `≤`. -/
theorem pairwise_mergeSort_strLe (l : List String) :
    List.Pairwise (fun a b : String => a ≤ b) (l.mergeSort strLe) := by
  have htrans : ∀ a b c : String,
      strLe a b = true → strLe b c = true → strLe a c = true := by
    intro a b c hab hbc
    simp only [strLe, decide_eq_true_eq] at *
    exact le_trans hab hbc
  have htotal : ∀ a b : String, (strLe a b || strLe b a) = true := by
    intro a b
    simp [strLe, le_total]
  exact (@List.sorted_mergeSort String strLe htrans htotal l).imp
    (fun hab => by simpa [strLe] using hab)

/-- C6.  `getCategories` returns the non-null category values deduplicated
and sorted ascending; `getTags` returns the union of the non-null tag
arrays, flattened, deduplicated and sorted ascending.  Two records each
tagged `"x"` contribute `"x"` exactly once. -/
theorem distinct_vocabularies (store : List Prompt) :
    (List.Pairwise (fun a b : String => a ≤ b) (getCategories store .success) ∧
      (getCategories store .success).Nodup ∧
      ∀ x, x ∈ getCategories store .success ↔
        ∃ p ∈ store, p.category = some x) ∧
    (List.Pairwise (fun a b : String => a ≤ b) (getTags store .success) ∧
      (getTags store .success).Nodup ∧
      ∀ x, x ∈ getTags store .success ↔
        ∃ p ∈ store, ∃ ts, p.tags = some ts ∧ x ∈ ts) ∧
    getTags [⟨1, "", "", none, some ["x"], 0⟩, ⟨2, "", "", none, some ["x"], 1⟩]
      .success = ["x"] := by
  refine ⟨⟨?_, ?_, ?_⟩, ⟨?_, ?_, ?_⟩, ?_⟩
  · exact pairwise_mergeSort_strLe _
  · exact ((List.mergeSort_perm _ strLe).symm.nodup) (List.nodup_dedup _)
  · intro x
    show x ∈ ((store.filterMap (fun p => p.category)).dedup).mergeSort strLe ↔ _
    simp [List.mem_mergeSort, List.mem_dedup, List.mem_filterMap]
  · exact pairwise_mergeSort_strLe _
  · exact ((List.mergeSort_perm _ strLe).symm.nodup) (List.nodup_dedup _)
  · intro x
    show x ∈ (((store.filterMap (fun p => p.tags)).flatten).dedup).mergeSort
        strLe ↔ _
    simp only [List.mem_mergeSort, List.mem_dedup, List.mem_flatten,
      List.mem_filterMap]
    constructor
    · rintro ⟨l, ⟨p, hp, hpt⟩, hx⟩
      exact ⟨p, hp, l, hpt, hx⟩
    · rintro ⟨p, hp, ts, hts, hx⟩
      exact ⟨ts, ⟨p, hp, hts⟩, hx⟩
  · show ((([⟨1, "", "", none, some ["x"], 0⟩,
        ⟨2, "", "", none, some ["x"], 1⟩] : List Prompt).filterMap
          (fun p => p.tags)).flatten).dedup.mergeSort strLe = ["x"]
    have h : ((([⟨1, "", "", none, some ["x"], 0⟩,
        ⟨2, "", "", none, some ["x"], 1⟩] : List Prompt).filterMap
          (fun p => p.tags)).flatten).dedup = ["x"] := by decide
    rw [h]
    simp

/-- With pairwise-distinct ids, filtering the store on an id yields the
singleton of a record iff that record is in the store and has that id. -/
theorem filter_id_singleton (store : List Prompt) (i : Nat)
    (h : (store.map Prompt.id).Nodup) (p : Prompt) :
    store.filter (fun q => q.id == i) = [p] ↔ p ∈ store ∧ p.id = i := by
  induction store with
  | nil => simp
  | cons a l ih =>
    simp only [List.map_cons, List.nodup_cons, List.mem_map] at h
    obtain ⟨ha, hl⟩ := h
    by_cases hai : a.id = i
    · have hfl : l.filter (fun q => q.id == i) = [] := by
        rw [List.filter_eq_nil_iff]
        intro q hq
        simp only [beq_iff_eq]
        intro hqi
        exact ha ⟨q, hq, by rw [hqi, hai]⟩
      rw [List.filter_cons_of_pos (by simp [hai]), hfl]
      simp only [List.cons.injEq, and_true, List.mem_cons]
      constructor
      · rintro rfl
        exact ⟨Or.inl rfl, hai⟩
      · rintro ⟨rfl | hp, hpi⟩
        · rfl
        · exact absurd ⟨p, hp, by rw [hpi, hai]⟩ ha
    · rw [List.filter_cons_of_neg (by simp [hai]), ih hl]
      simp only [List.mem_cons]
      constructor
      · rintro ⟨hp, hpi⟩
        exact ⟨Or.inr hp, hpi⟩
      · rintro ⟨rfl | hp, hpi⟩
        · exact absurd hpi hai
        · exact ⟨hp, hpi⟩

/-- C7.  When ids are pairwise distinct, `getPromptById` on a successful
round trip returns exactly the record whose `id` equals the argument, and
`none` when no record matches; a failed round trip or a thrown exception
also yields `none`, indistinguishable from not-found. -/
theorem single_lookup_exact (store : List Prompt) (i : Nat)
    (h : (store.map Prompt.id).Nodup) :
    (∀ p, getPromptById store i .success = some p ↔ p ∈ store ∧ p.id = i) ∧
    ((∀ p ∈ store, p.id ≠ i) → getPromptById store i .success = none) ∧
    (∀ msg, getPromptById store i (.failure msg) = none ∧
      getPromptById store i (.raised msg) = none) := by
  refine ⟨?_, ?_, fun msg => ⟨rfl, rfl⟩⟩
  · intro p
    rw [← filter_id_singleton store i h p]
    show (match store.filter (fun q => q.id == i) with
      | [p] => some p
      | _ => none) = some p ↔ _
    rcases hf : store.filter (fun q => q.id == i) with _ | ⟨x, _ | ⟨y, t⟩⟩ <;>
      rw [hf] <;> simp
  · intro hnone
    have hfl : store.filter (fun q => q.id == i) = [] := by
      rw [List.filter_eq_nil_iff]
      intro q hq
      simpa using hnone q hq
    show (match store.filter (fun q => q.id == i) with
      | [p] => some p
      | _ => none) = none
    rw [hfl]

/-- A concrete two-record store with distinct ids, used to witness C7. -/
def wStore : List Prompt :=
  [⟨1, "Professional Email", "Write a professional email", some "Writing",
      some ["email", "business"], 10⟩,
    ⟨2, "Code Review", "Review the code", some "Development",
      some ["code"], 20⟩]

/-- Witness for C7 at a concrete store and id. -/
theorem single_lookup_exact_witness :
    getPromptById wStore 2 .success =
      some ⟨2, "Code Review", "Review the code", some "Development",
        some ["code"], 20⟩ :=
  ((single_lookup_exact wStore 2 (by decide)).1 _).2 ⟨by decide, rfl⟩

/-! ## API layer (`app/api/prompts/route.js`, `app/api/stats/route.js`) -/

/-- `searchParams.get(name)`: first value bound to `name` in the query
string, or null when absent. -/
def getParam (params : List (String × String)) (name : String) :
    Option String :=
  (params.find? (fun kv => kv.fst == name)).map (fun kv => kv.snd)

/-- JavaScript `x || null` on a nullable string: the empty string is falsy
and collapses to null. -/
def orNull (o : Option String) : Option String :=
  match o with
  | none => none
  | some s => if s = "" then none else some s

/-- Numeric value of a non-empty digit string. -/
def digitsVal (ds : List Char) : Nat :=
  ds.foldl (fun acc c => acc * 10 + (c.toNat - 48)) 0

/-- JavaScript `parseInt(s, 10)`: skip leading whitespace, read an
optional sign and then the longest digit prefix; `none` models `NaN`
(no digits at all). -/
def parseIntJs (s : String) : Option Int :=
  match s.toList.dropWhile (fun c => c.isWhitespace) with
  | '-' :: r =>
    let ds := r.takeWhile (fun c => c.isDigit)
    if ds.isEmpty then none else some (-(digitsVal ds : Int))
  | '+' :: r =>
    let ds := r.takeWhile (fun c => c.isDigit)
    if ds.isEmpty then none else some (digitsVal ds : Int)
  | r =>
    let ds := r.takeWhile (fun c => c.isDigit)
    if ds.isEmpty then none else some (digitsVal ds : Int)

/-- Split a character list at every occurrence of `sep`; the JavaScript
`String.prototype.split` convention, where the empty input yields one
empty segment. -/
def splitOnChar (sep : Char) : List Char → List (List Char)
  | [] => [[]]
  | c :: rest =>
    if c = sep then [] :: splitOnChar sep rest
    else
      match splitOnChar sep rest with
      | [] => [[c]]
      | h :: t => (c :: h) :: t

/-- JavaScript `s.split(',')`, embedded at the character level so it
computes by `decide`/`rfl`. -/
def jsSplitComma (s : String) : List String :=
  (splitOnChar ',' s.toList).map (fun cs => ⟨cs⟩)

/-- `tagsParam ? tagsParam.split(',').map(t => t.trim()).filter(Boolean) : []`:
comma-separated segments, each trimmed, empty segments dropped; a missing
(or empty, hence falsy) parameter yields the empty list. -/
def parseTagsParam (o : Option String) : List String :=
  match o with
  | none => []
  | some s =>
    if s = "" then []
    else ((jsSplitComma s).map jsTrim).filter (fun t => t ≠ "")

/-- The JSON body (plus status) produced by the success path of
`GET /api/prompts`: the prompts array, `count`, and the echo of the parsed
parameters.  `none` in the `limit`/`offset` echoes models `NaN`. -/
structure PromptsResponse where
  status : Nat
  prompts : List Prompt
  count : Nat
  echoQuery : String
  echoCategory : Option String
  echoTags : List String
  echoLimit : Option Int
  echoOffset : Option Int
deriving Repr

/-- The success path of the `GET /api/prompts` handler.  The parsed
values go to `searchPrompts` unvalidated; the search call itself is the
injected `search` (its round trip and store are not the handler's
concern).  The `catch` branch (status 500, body `{error, prompts: []}`)
is not modelled here, as no claim concerns it. -/
def promptsGET
    (search : String → Option String → List String → Option Int →
      Option Int → List Prompt)
    (params : List (String × String)) : PromptsResponse :=
  let query := (getParam params "query").getD ""
  let category := orNull (getParam params "category")
  let tags := parseTagsParam (getParam params "tags")
  let limit := parseIntJs ((orNull (getParam params "limit")).getD "50")
  let offset := parseIntJs ((orNull (getParam params "offset")).getD "0")
  let prompts := search query category tags limit offset
  ⟨200, prompts, prompts.length, query, category, tags, limit, offset⟩

/-- The JSON body (plus status) produced by `GET /api/stats`.  On the
failure path the real JSON omits `categoriesList`/`tagsList`; they are
`[]` here and no claim reads them on that path. -/
structure StatsResponse where
  status : Nat
  total : Nat
  categories : Nat
  tags : Nat
  categoriesList : List String
  tagsList : List String
  error : Option String
deriving Repr

/-- The `GET /api/stats` handler: on the success path the three fail-soft
reads are combined, `categories`/`tags` being the lengths of the two
vocabulary lists; an exception thrown above the fail-soft layer (`exn`)
produces status 500 and the zeroed error body. -/
def statsGET (store : List Prompt) (rtCount rtCat rtTags : RoundTrip)
    (exn : Option String) : StatsResponse :=
  match exn with
  | some msg => ⟨500, 0, 0, 0, [], [], some msg⟩
  | none =>
    let cats := getCategories store rtCat
    let tgs := getTags store rtTags
    ⟨200, getPromptCount store rtCount, cats.length, tgs.length, cats, tgs,
      none⟩

/-- C8.  On the success path of `GET /prompts` the body's `count` equals
the length of the returned `prompts` array; the `query` object echoes
exactly the parsed parameters, whose defaults when unset are the empty
string, absent category, the empty tag list, 50 and 0; `limit` and
`offset` are parsed leniently by `parseInt` and handed to the search
unvalidated (a non-numeric or negative value passes straight through). -/
theorem prompts_response_shape
    (search : String → Option String → List String → Option Int →
      Option Int → List Prompt)
    (params : List (String × String)) :
    ((promptsGET search params).count =
        (promptsGET search params).prompts.length ∧
      (promptsGET search params).status = 200 ∧
      (promptsGET search params).prompts =
        search (promptsGET search params).echoQuery
          (promptsGET search params).echoCategory
          (promptsGET search params).echoTags
          (promptsGET search params).echoLimit
          (promptsGET search params).echoOffset) ∧
    ((promptsGET search params).echoQuery =
        (getParam params "query").getD "" ∧
      (promptsGET search params).echoCategory =
        orNull (getParam params "category") ∧
      (promptsGET search params).echoTags =
        parseTagsParam (getParam params "tags") ∧
      (promptsGET search params).echoLimit =
        parseIntJs ((orNull (getParam params "limit")).getD "50") ∧
      (promptsGET search params).echoOffset =
        parseIntJs ((orNull (getParam params "offset")).getD "0")) ∧
    (getParam params "query" = none →
      (promptsGET search params).echoQuery = "") ∧
    (getParam params "category" = none →
      (promptsGET search params).echoCategory = none) ∧
    (getParam params "tags" = none →
      (promptsGET search params).echoTags = []) ∧
    (getParam params "limit" = none →
      (promptsGET search params).echoLimit = some 50) ∧
    (getParam params "offset" = none →
      (promptsGET search params).echoOffset = some 0) := by
  refine ⟨⟨rfl, rfl, rfl⟩, ⟨rfl, rfl, rfl, rfl, rfl⟩, ?_, ?_, ?_, ?_, ?_⟩ <;>
      intro h <;>
      simp only [promptsGET, h, orNull, parseTagsParam, Option.getD_none,
        Option.getD_some] <;>
      decide

/-- Witness for C8 at a concrete request with no parameters. -/
theorem prompts_response_shape_witness :
    (promptsGET (fun _ _ _ _ _ => []) []).echoLimit = some 50 ∧
    (promptsGET (fun _ _ _ _ _ => []) []).echoOffset = some 0 ∧
    (promptsGET (fun _ _ _ _ _ => []) []).echoQuery = "" ∧
    (promptsGET (fun _ _ _ _ _ => []) []).count =
      (promptsGET (fun _ _ _ _ _ => []) []).prompts.length := by
  have h := prompts_response_shape (fun _ _ _ _ _ => []) []
  exact ⟨h.2.2.2.2.2.1 rfl, h.2.2.2.2.2.2 rfl, h.2.2.1 rfl, h.1.1⟩

/-- C9.  `GET /stats` on success has status 200, `categories` and `tags`
equal to the lengths of `categoriesList` and `tagsList`, and `total` the
full-table count; an exception above the fail-soft layer yields status 500
and the body `{error, total: 0, categories: 0, tags: 0}`. -/
theorem stats_response_shape (store : List Prompt)
    (rtCount rtCat rtTags : RoundTrip) (msg : String) :
    ((statsGET store rtCount rtCat rtTags none).status = 200 ∧
      (statsGET store rtCount rtCat rtTags none).total =
        getPromptCount store rtCount ∧
      (statsGET store rtCount rtCat rtTags none).categories =
        (getCategories store rtCat).length ∧
      (statsGET store rtCount rtCat rtTags none).tags =
        (getTags store rtTags).length ∧
      (statsGET store rtCount rtCat rtTags none).categoriesList =
        getCategories store rtCat ∧
      (statsGET store rtCount rtCat rtTags none).tagsList =
        getTags store rtTags ∧
      (statsGET store .success rtCat rtTags none).total = store.length) ∧
    ((statsGET store rtCount rtCat rtTags (some msg)).status = 500 ∧
      (statsGET store rtCount rtCat rtTags (some msg)).error = some msg ∧
      (statsGET store rtCount rtCat rtTags (some msg)).total = 0 ∧
      (statsGET store rtCount rtCat rtTags (some msg)).categories = 0 ∧
      (statsGET store rtCount rtCat rtTags (some msg)).tags = 0) :=
  ⟨⟨rfl, rfl, rfl, rfl, rfl, rfl, rfl⟩, ⟨rfl, rfl, rfl, rfl, rfl⟩⟩

/-- C10.  The tag list handed to the search by `GET /prompts` consists of
the comma-separated segments of the `tags` parameter, each trimmed, with
empty segments removed — so `"a, ,b,"` yields `["a", "b"]` — and an
absent parameter yields the empty list, under which the tag filter is
never installed. -/
theorem tags_parameter_parsing :
    (∀ s : String, parseTagsParam (some s) =
      ((jsSplitComma s).map jsTrim).filter (fun t => t ≠ "")) ∧
    parseTagsParam none = [] ∧
    parseTagsParam (some "a, ,b,") = ["a", "b"] ∧
    (∀ (search : String → Option String → List String → Option Int →
        Option Int → List Prompt) (params : List (String × String)),
      (promptsGET search params).echoTags =
        parseTagsParam (getParam params "tags")) ∧
    (∀ (fts : String → String → Bool) (store : List Prompt) (q : String)
        (c : Option String) (limit offset : Nat) (rt : RoundTrip),
      searchPrompts fts store q c (parseTagsParam none) limit offset rt =
        searchPrompts fts store q c [] limit offset rt) := by
  refine ⟨?_, rfl, by decide, fun search params => rfl,
    fun _ _ _ _ _ _ _ => rfl⟩
  intro s
  by_cases hs : s = ""
  · subst hs
    decide
  · simp [parseTagsParam, hs]

/-- Witness for C1: with a never-matching full-text operator, a record
whose title contains the query still passes the text filter. -/
theorem text_filter_disjunction_witness :
    (⟨1, "Professional Email", "", some "Writing", none, 0⟩ : Prompt) ∈
      filteredSorted (fun _ _ => false)
        [⟨1, "Professional Email", "", some "Writing", none, 0⟩]
        "email" none [] := by
  refine (text_filter_disjunction (fun _ _ => false)
      [⟨1, "Professional Email", "", some "Writing", none, 0⟩]
      "email" none [] ⟨1, "Professional Email", "", some "Writing", none, 0⟩
    ).mpr ⟨?_, ?_⟩
  · exact mem_filteredSorted.mpr ⟨by decide, by decide, by simp, by decide⟩
  · decide

/-- Witness for C2: the superset examples extracted at concrete inputs. -/
theorem tag_filter_superset_witness :
    tagsMatch ["a", "b"] ⟨1, "", "", none, some ["a", "b", "c"], 0⟩ = true ∧
    tagsMatch ["a", "b"] ⟨2, "", "", none, some ["a"], 0⟩ = false :=
  ⟨(tag_filter_superset (fun _ _ => false) [] "" none []
      ⟨0, "", "", none, none, 0⟩).2.1,
    (tag_filter_superset (fun _ _ => false) [] "" none []
      ⟨0, "", "", none, none, 0⟩).2.2⟩

/-- Witness for C3: case-sensitivity extracted at a concrete input. -/
theorem category_filter_exact_witness :
    categoryMatch "Writing" ⟨1, "", "", some "writing", none, 0⟩ = false :=
  (category_filter_exact (fun _ _ => false) [] "" "x" []
    ⟨0, "", "", none, none, 0⟩).2

/-- Witness for C4 at a concrete store, limit 2 and offset 1, inner bound
discharged at `i = 0`. -/
theorem pagination_and_order_witness :
    (searchPrompts (fun _ _ => false) wStore "" none [] 2 1
        .success).length ≤ 2 ∧
    (searchPrompts (fun _ _ => false) wStore "" none [] 2 1 .success)[0]? =
      (filteredSorted (fun _ _ => false) wStore "" none [])[1 + 0]? :=
  ⟨(pagination_and_order (fun _ _ => false) wStore "" none [] 2 1).1,
    (pagination_and_order (fun _ _ => false) wStore "" none [] 2 1).2.2.1 0
      (by decide)⟩
